import Mathlib

/-!
Verification of the TMDB metadata-aggregation module (`tmdb.py`).

The Python module is shallowly embedded: dictionaries coming back from the
remote endpoints become structures whose fields are all `Option` (a missing
key is `none`); Python truthiness is modelled explicitly; code that can raise
an exception is embedded in `Except String`; network calls are modelled by an
environment (`TmdbEnv`) that records, for each endpoint, whether the transport
raised or which HTTP status / JSON body came back.
-/

/-- Python truthiness of an optional string: `None` and `""` are falsy. -/
def pyTruthyStr : Option String → Bool
  | none => false
  | some s => !s.isEmpty

/-- Python truthiness of an optional integer: `None` and `0` are falsy. -/
def pyTruthyNat : Option Nat → Bool
  | none => false
  | some n => n != 0

/-- Python f-string interpolation of a possibly-`None` value. -/
def pyFmtOpt : Option String → String
  | none => "None"
  | some s => s

/-- Python `a or b` on two optional strings (used for `title or name`). -/
def pyOrStr (a b : Option String) : Option String :=
  if pyTruthyStr a then a else b

/-- Characters of the longest prefix of `s` that stops right before the first
occurrence of the (non-empty) separator `sep`; the whole of `s` if `sep` does
not occur.  This is Python's `s.split(sep)[0]`. -/
def takeUntilSub (sep : List Char) : List Char → List Char
  | [] => []
  | c :: rest => if sep.isPrefixOf (c :: rest) then [] else c :: takeUntilSub sep rest

/-- Whether the (non-empty) separator `sep` occurs as a contiguous sublist. -/
def containsSub (sep : List Char) : List Char → Bool
  | [] => sep.isEmpty
  | c :: rest => sep.isPrefixOf (c :: rest) || containsSub sep rest

/-- Python `s.split(sep)` for a single-character separator: always at least one
part, one extra part per separator occurrence, empty parts kept. -/
def pySplitChar (sep : Char) : List Char → List (List Char)
  | [] => [[]]
  | c :: rest =>
    if c = sep then [] :: pySplitChar sep rest
    else
      match pySplitChar sep rest with
      | [] => [[c]]
      | h :: t => (c :: h) :: t

/-- Python `s.split('&')` on a `String`. -/
def pySplitAmp (s : String) : List String :=
  (pySplitChar '&' s.toList).map (fun cs => String.mk cs)

/-- Python `str.strip()`: remove leading and trailing whitespace.  Defined
over the character list so that it is kernel-computable. -/
def pyStrip (s : String) : String :=
  String.mk (((s.toList.dropWhile Char.isWhitespace).reverse.dropWhile Char.isWhitespace).reverse)

/-- The two-character separator `"::"` used by the plot truncation. -/
def doubleColon : List Char := [':', ':']

/-! ## Raw payload shapes (untyped dicts; every key may be missing) -/

/-- One entry of a `spoken_languages` list. -/
structure LangEntry where
  english_name : Option String := none
deriving Repr, DecidableEq

/-- One entry of a `genres` list. -/
structure GenreEntry where
  name : Option String := none
deriving Repr, DecidableEq

/-- One crew / cast / `created_by` member. -/
structure CreditPerson where
  name : Option String := none
  profile_path : Option String := none
  job : Option String := none
deriving Repr, DecidableEq

/-- One entry of an images list. -/
structure ImageEntry where
  file_path : Option String := none
deriving Repr, DecidableEq

/-- One entry of a videos-endpoint result list. -/
structure VideoEntry where
  site : Option String := none
  type : Option String := none
  key : Option String := none
deriving Repr, DecidableEq

/-- The detail-endpoint payload (`data` in the Python code).
`vote_average` is carried as a rational; the decimal rounding Python applies
to it is floating-point and is not modelled (no claim depends on it). -/
structure RawDetail where
  title : Option String := none
  name : Option String := none
  release_date : Option String := none
  first_air_date : Option String := none
  overview : Option String := none
  imdb_id : Option String := none
  vote_average : Option Rat := none
  spoken_languages : Option (List LangEntry) := none
  genres : Option (List GenreEntry) := none
  created_by : Option (List CreditPerson) := none
  poster_path : Option String := none
deriving Repr, DecidableEq

/-- The credits-endpoint payload. -/
structure RawCredits where
  crew : Option (List CreditPerson) := none
  cast : Option (List CreditPerson) := none
deriving Repr, DecidableEq

/-- The images-endpoint payload. -/
structure RawImages where
  backdrops : Option (List ImageEntry) := none
  posters : Option (List ImageEntry) := none
deriving Repr, DecidableEq

/-- The videos-endpoint payload. -/
structure VideosPayload where
  results : Option (List VideoEntry) := none
deriving Repr, DecidableEq

/-- The external-ids-endpoint payload. -/
structure ExternalIdsPayload where
  imdb_id : Option String := none
deriving Repr, DecidableEq

/-- The record returned by the IMDbPY client: only its `plot` list is read. -/
structure IMDbMovie where
  plot : Option (List String) := none
deriving Repr, DecidableEq

instance {ε α : Type} [DecidableEq ε] [DecidableEq α] : DecidableEq (Except ε α) := fun
  | .error e, .error f => decidable_of_iff (e = f) (by simp)
  | .error _, .ok _ => isFalse (by simp)
  | .ok _, .error _ => isFalse (by simp)
  | .ok a, .ok b => decidable_of_iff (a = b) (by simp)

/-- Result of one HTTP call: either the transport raised
(`aiohttp.ClientError` and friends), or a response arrived carrying a status
code and a body whose JSON decoding may itself fail. -/
inductive Fetch (α : Type) where
  | raise (e : String)
  | resp (status : Nat) (json : Except String α)
deriving Repr, DecidableEq

/-- The outcomes of every network interaction one `get_by_id` call can make. -/
structure TmdbEnv where
  detail : Fetch RawDetail
  images : Fetch RawImages
  credits : Fetch RawCredits
  videos : Fetch VideosPayload
  external_ids : Fetch ExternalIdsPayload
  imdb : Except String IMDbMovie
deriving Repr

/-- Embeds `await resp.json()` on a completed call: a transport error propagates, a
response yields its decoded body (or a decoding error).  The status code is
not consulted here — exactly as in the Python code for the three core calls. -/
def fetchJson {α : Type} : Fetch α → Except String α
  | .raise e => Except.error e
  | .resp _ body => body

/-! ## Field extractors (pure functions of the payloads) -/

def POSTER_BASE_URL : String := "https://image.tmdb.org/t/p/original"
def PROFILE_BASE_URL : String := "https://image.tmdb.org/t/p/w500"

/-- Embeds `profile_url`: build an absolute profile URL when the path is truthy. -/
def profile_url (path : Option String) : Option String :=
  if pyTruthyStr path then some (PROFILE_BASE_URL ++ path.getD "") else none

/-- Embeds `clean_genre_name`: `re.sub(r'[^A-Za-z0-9]', '', genre)`. -/
def clean_genre_name (genre : String) : String :=
  String.mk (genre.toList.filter (fun c => c.isAlpha || c.isDigit))

/-- Embeds `extract_language`. -/
def extract_language (data : RawDetail) : String :=
  let spoken_languages := data.spoken_languages.getD []
  if spoken_languages ≠ [] then
    String.intercalate ", " (spoken_languages.map (fun lang => lang.english_name.getD "Unknown"))
  else "Unknown"

/-- Processing of one genre name inside `extract_genres`: names containing
`'&'` are split on it and each part stripped, other names are kept as they
are (the Python code does not strip them). -/
def extract_genres_entry (name : String) : List String :=
  if name.toList.contains '&' then (pySplitAmp name).map pyStrip
  else [name]

/-- The loop of `extract_genres`.  The Python code subscripts `genre['name']`
directly, so an entry with no `name` key raises `KeyError` — embedded as
`Except.error`. -/
def extract_genres_list : List GenreEntry → Except String (List String)
  | [] => Except.ok []
  | g :: rest =>
    match g.name with
    | none => Except.error "KeyError: 'name'"
    | some n => (extract_genres_list rest).map (fun tail => extract_genres_entry n ++ tail)

/-- Embeds `extract_genres`. -/
def extract_genres (data : RawDetail) : Except String (List String) :=
  extract_genres_list (data.genres.getD [])

/-- Embeds `extract_release_date`: `data.get('release_date') or data.get('first_air_date', "")`. -/
def extract_release_date (data : RawDetail) : String :=
  if pyTruthyStr data.release_date then data.release_date.getD ""
  else data.first_air_date.getD ""

/-- Output person record `{name, profile_path}`. -/
structure PersonRef where
  name : Option String
  profile_path : Option String
deriving Repr, DecidableEq

/-- Embeds `extract_directors`. -/
def extract_directors (tmdb_type : String) (data : RawDetail) (credits : RawCredits) :
    List PersonRef :=
  if tmdb_type = "movie" then
    (credits.crew.getD []).filterMap (fun member =>
      if member.job = some "Director" then
        some { name := member.name, profile_path := profile_url member.profile_path }
      else none)
  else if tmdb_type = "tv" then
    (data.created_by.getD []).map (fun creator =>
      { name := creator.name, profile_path := profile_url creator.profile_path })
  else []

/-- Embeds `extract_stars` (the Python default `limit=5` is passed explicitly). -/
def extract_stars (credits : RawCredits) (limit : Nat) : List PersonRef :=
  let cast_list := credits.cast.getD []
  if cast_list = [] then []
  else (cast_list.take limit).map (fun member =>
    { name := member.name, profile_path := profile_url member.profile_path })

/-- Embeds `get_poster_url`. -/
def get_poster_url (data : RawDetail) : Option String :=
  if pyTruthyStr data.poster_path then some (POSTER_BASE_URL ++ data.poster_path.getD "")
  else none

/-- One iteration of the `get_backdrop_url` loop for one key. -/
def backdrop_candidate : Option (List ImageEntry) → Option String
  | some (e :: _) =>
    if pyTruthyStr e.file_path then some (POSTER_BASE_URL ++ e.file_path.getD "") else none
  | _ => none

/-- Embeds `get_backdrop_url`: first backdrop path, else first poster path. -/
def get_backdrop_url (movie_images : RawImages) : Option String :=
  match backdrop_candidate movie_images.backdrops with
  | some url => some url
  | none => backdrop_candidate movie_images.posters

/-! ## Auxiliary network lookups -/

/-- The scan inside `get_trailer_url` over the videos result list. -/
def findTrailer : List VideoEntry → Option String
  | [] => none
  | v :: rest =>
    if v.site = some "YouTube" ∧ v.type = some "Trailer" then
      some ("https://www.youtube.com/watch?v=" ++ pyFmtOpt v.key)
    else findTrailer rest

/-- Embeds `get_trailer_url`: the only lookup that checks the HTTP status; a non-200
response yields `None`, but a transport error propagates to the caller. -/
def get_trailer_url (env : TmdbEnv) : Except String (Option String) :=
  match env.videos with
  | .raise e => Except.error e
  | .resp status body =>
    if status = 200 then
      Except.map (fun data => findTrailer (data.results.getD [])) body
    else Except.ok none

/-- Embeds `get_tv_imdb_id`: no status check, no local exception handling — a
transport or decoding error propagates to the caller. -/
def get_tv_imdb_id (env : TmdbEnv) : Except String (Option String) :=
  match env.external_ids with
  | .raise e => Except.error e
  | .resp _ body => Except.map (fun data => data.imdb_id) body

/-- Embeds `get_imdb_plot`: its `try` swallows every failure, returning `""`.
`movie.get('plot', [''])[0]` with a present-but-empty plot list raises
`IndexError`, which the same `except` turns into `""`.  The plot text is cut
at the first `"::"` and stripped. -/
def get_imdb_plot (lookup : Except String IMDbMovie) : String :=
  match lookup with
  | .error _ => ""
  | .ok movie =>
    match movie.plot.getD [""] with
    | [] => ""
    | p :: _ => pyStrip (String.mk (takeUntilSub doubleColon p.toList))

/-- Lines 121–125 of `get_by_id`: the plot chain after `imdb_id` has been
resolved — secondary-source text when an id is available, primary `overview`
whenever that came back empty. -/
def resolve_plot (imdbLookup : Except String IMDbMovie) (imdb_id : Option String)
    (data : RawDetail) : String :=
  let plot := if pyTruthyStr imdb_id then get_imdb_plot imdbLookup else ""
  if plot ≠ "" then plot else data.overview.getD ""

/-! ## Message formatter -/

/-- Embeds `f"{n:02d}"` for a natural number. -/
def pad2 (n : Nat) : String :=
  if n < 10 then "0" ++ toString n else toString n

/-- The movie header of `format_tmdb_info`.  Note the parentheses around the
year are part of the template: an absent release date leaves `" ()"`. -/
def movie_header (data : RawDetail) : String :=
  let title := data.title.getD ""
  let year := if pyTruthyStr data.release_date then (data.release_date.getD "").take 4 else ""
  "<b>" ++ title ++ " (" ++ year ++ ")</b> is now available!"

/-- The series header of `format_tmdb_info`. -/
def tv_header (season episode : Option Nat) (data : RawDetail) : String :=
  let title := data.name.getD ""
  let year := if pyTruthyStr data.first_air_date then (data.first_air_date.getD "").take 4 else ""
  if pyTruthyNat season && pyTruthyNat episode then
    if season = some 1 ∧ episode = some 1 then
      "<b>" ++ title ++ " (" ++ year ++ ") S" ++ pad2 (season.getD 0) ++ "E" ++
        pad2 (episode.getD 0) ++ "</b> is now available!"
    else
      "<b>" ++ title ++ " S" ++ pad2 (season.getD 0) ++ "E" ++
        pad2 (episode.getD 0) ++ "</b> is now available!"
  else if pyTruthyNat season then
    if season = some 1 then
      "<b>" ++ title ++ " (" ++ year ++ ") Season " ++ toString (season.getD 0) ++
        "</b> is now available!"
    else
      "<b>" ++ title ++ " Season " ++ toString (season.getD 0) ++ "</b> is now available!"
  else
    "<b>" ++ title ++ "</b> is now available!"

/-- Header dispatch of `format_tmdb_info`. -/
def header_of (tmdb_type : String) (season episode : Option Nat) (data : RawDetail) : String :=
  if tmdb_type = "movie" then movie_header data
  else if tmdb_type = "tv" then tv_header season episode data
  else "Now Available!"

/-- Embeds `''.join(c for c in g if c.isalnum())` (ASCII alphanumerics; the payloads
the claims concern are ASCII). -/
def pyIsAlnumFilter (g : String) : String :=
  String.mk (g.toList.filter Char.isAlphanum)

/-- The genre-name list comprehension of `format_tmdb_info` (line 208): it
subscripts `g['name']` directly on the **raw** genre entries, so a missing
name raises `KeyError`. -/
def format_genre_names : List GenreEntry → Except String (List String)
  | [] => Except.ok []
  | g :: rest =>
    match g.name with
    | none => Except.error "KeyError: 'name'"
    | some n => (format_genre_names rest).map (fun tail => n :: tail)

/-- The `'#' + stripped` tag list of `format_tmdb_info`, space-joined. -/
def genre_tags (names : List String) : String :=
  String.intercalate " " (names.map (fun g => "#" ++ pyIsAlnumFilter g))

/-- Embeds `(season and season > 1) or (episode and episode > 1)`. -/
def later_episode (season episode : Option Nat) : Bool :=
  (pyTruthyNat season && decide (1 < season.getD 0)) ||
  (pyTruthyNat episode && decide (1 < episode.getD 0))

/-- Embeds `format_tmdb_info`.  Result is `Except` because the genre comprehension
can raise `KeyError`. -/
def format_tmdb_info (tmdb_type : String) (season episode : Option Nat)
    (directors_str stars_str : String) (data : RawDetail) (plot : String) :
    Except String String :=
  let header := header_of tmdb_type season episode data
  (format_genre_names (data.genres.getD [])).map (fun names =>
    let genres_str := genre_tags names
    if later_episode season episode then
      pyStrip (header ++ "\n\n" ++ genres_str)
    else
      pyStrip (header ++ "\n\n"
        ++ (if plot ≠ "" then plot ++ "\n\n" else "")
        ++ (if stars_str ≠ "" then "<b>Stars:</b> " ++ stars_str ++ "\n\n" else "")
        ++ (if directors_str ≠ "" then "<b>Directors:</b> " ++ directors_str ++ "\n\n" else "")
        ++ genres_str))

/-! ## The aggregation pipeline -/

/-- The `", ".join([p["name"] for p in ps])`: joining a `None` name raises
`TypeError`, embedded as `Except.error`. -/
def join_names (ps : List PersonRef) : Except String String :=
  (ps.mapM (fun (p : PersonRef) =>
    match p.name with
    | some n => Except.ok n
    | none => Except.error "TypeError: expected str instance, NoneType found")).map
    (String.intercalate ", ")

/-- Embeds `", ".join(...) if lst else "Unknown"`. -/
def names_or_unknown (ps : List PersonRef) : Except String String :=
  if ps = [] then Except.ok "Unknown" else join_names ps

/-- The persisted record (`mongo_dict`). -/
structure MongoDict where
  tmdb_id : Int
  tmdb_type : String
  title : Option String
  rating : Rat
  language : String
  genre : List String
  release_date : String
  story : Option String
  directors : List PersonRef
  stars : List PersonRef
  trailer_url : Option String
  poster_url : Option String
deriving Repr, DecidableEq

/-- Return value of `get_by_id`: the success dict or the two-field degraded
error dict produced by its `except` clauses. -/
inductive GetByIdResult where
  | ok (message : String) (poster_url backdrop_url trailer_url : Option String)
      (mongo : MongoDict)
  | err (message : String) (poster_url : Option String)
deriving Repr, DecidableEq

/-- The `try` body of `get_by_id`, in the source's evaluation order.  Any
embedded `Except.error` models an exception reaching the `except` clauses. -/
def get_by_id_body (env : TmdbEnv) (tmdb_type : String) (tmdb_id : Int)
    (season episode : Option Nat) : Except String GetByIdResult := do
  let data ← fetchJson env.detail
  let movie_images ← fetchJson env.images
  let credits ← fetchJson env.credits
  let poster_url := get_poster_url data
  let backdrop_url := get_backdrop_url movie_images
  let trailer_url ← get_trailer_url env
  let directors_list := extract_directors tmdb_type data credits
  let stars_list := extract_stars credits 5
  let directors_str ← names_or_unknown directors_list
  let stars_str ← names_or_unknown stars_list
  let language := extract_language data
  let genres ← extract_genres data
  let release_date := extract_release_date data
  let imdb_id ← if tmdb_type = "tv" ∧ pyTruthyStr data.imdb_id = false then
      get_tv_imdb_id env
    else pure data.imdb_id
  let plot := resolve_plot env.imdb imdb_id data
  let message ← format_tmdb_info tmdb_type season episode directors_str stars_str data plot
  pure (GetByIdResult.ok message poster_url backdrop_url trailer_url
    { tmdb_id := tmdb_id, tmdb_type := tmdb_type,
      title := pyOrStr data.title data.name,
      rating := data.vote_average.getD 0,
      language := language, genre := genres, release_date := release_date,
      story := if plot ≠ "" then some plot else data.overview,
      directors := directors_list, stars := stars_list,
      trailer_url := trailer_url, poster_url := poster_url })

/-- Embeds `get_by_id`: both `except` clauses degrade to the same two-field dict. -/
def get_by_id (env : TmdbEnv) (tmdb_type : String) (tmdb_id : Int)
    (season episode : Option Nat) : GetByIdResult :=
  match get_by_id_body env tmdb_type tmdb_id season episode with
  | .ok r => r
  | .error e => GetByIdResult.err ("Error: " ++ e) none

/-! ## Name-based search -/

/-- One search-endpoint result entry. -/
structure SearchEntry where
  id : Option Int := none
  release_date : Option String := none
  first_air_date : Option String := none
deriving Repr, DecidableEq

/-- A search-endpoint payload. -/
structure SearchPayload where
  results : Option (List SearchEntry) := none
deriving Repr, DecidableEq

/-- The `{id, media_type}` dict a successful search returns. -/
structure SearchResultRef where
  id : Int
  media_type : String
deriving Repr, DecidableEq

/-- Embeds `'release_date' in result and result['release_date'] and
result['release_date'][:4] == str(year)` — the year filter predicate. -/
def year_matches (dateField : Option String) (year : Nat) : Bool :=
  pyTruthyStr dateField && ((dateField.getD "").take 4 == toString year)

/-- The `try` body of `get_movie_by_name`. -/
def movie_search_body (f : Fetch SearchPayload) (release_year : Option Nat) :
    Except String (Option SearchResultRef) := do
  let search_data ← fetchJson f
  match search_data.results with
  | some (r0 :: rs) =>
    let results := r0 :: rs
    let results := if pyTruthyNat release_year then
        results.filter (fun r => year_matches r.release_date (release_year.getD 0))
      else results
    match results with
    | [] => pure none
    | r :: _ =>
      match r.id with
      | some i => pure (some { id := i, media_type := "movie" })
      | none => Except.error "KeyError: 'id'"
  | _ => pure none

/-- Embeds `get_movie_by_name`: its `except` clause returns `None`, like "not found". -/
def get_movie_by_name (f : Fetch SearchPayload) (movie_name : String)
    (release_year : Option Nat) : Option SearchResultRef :=
  match movie_search_body f release_year with
  | .ok r => r
  | .error _ => none

/-- The `try` body of `get_tv_by_name`. -/
def tv_search_body (f : Fetch SearchPayload) (first_air_year : Option Nat) :
    Except String (Option SearchResultRef) := do
  let search_data ← fetchJson f
  match search_data.results with
  | some (r0 :: rs) =>
    let results := r0 :: rs
    let results := if pyTruthyNat first_air_year then
        results.filter (fun r => year_matches r.first_air_date (first_air_year.getD 0))
      else results
    match results with
    | [] => pure none
    | r :: _ =>
      match r.id with
      | some i => pure (some { id := i, media_type := "tv" })
      | none => Except.error "KeyError: 'id'"
  | _ => pure none

/-- Embeds `get_tv_by_name`. -/
def get_tv_by_name (f : Fetch SearchPayload) (tv_name : String)
    (first_air_year : Option Nat) : Option SearchResultRef :=
  match tv_search_body f first_air_year with
  | .ok r => r
  | .error _ => none

/-! ## Helper lemmas -/

theorem bind_ok_eq {α β : Type} (a : α) (f : α → Except String β) :
    (do let x ← Except.ok a; f x) = f a := rfl

theorem bind_error_eq {α β : Type} (e : String) (f : α → Except String β) :
    (do let x ← (Except.error e : Except String α); f x) = Except.error e := rfl

theorem map_ok_eq {α β : Type} (a : α) (f : α → β) :
    (Except.ok a : Except String α).map f = Except.ok (f a) := rfl

theorem map_error_eq {α β : Type} (e : String) (f : α → β) :
    (Except.error e : Except String α).map f = Except.error e := rfl

theorem pySplitChar_ne_nil (sep : Char) (l : List Char) : pySplitChar sep l ≠ [] := by
  induction l with
  | nil => simp [pySplitChar]
  | cons c rest ih =>
    unfold pySplitChar
    by_cases hc : c = sep
    · simp [hc]
    · simp only [if_neg hc]
      cases hr : pySplitChar sep rest with
      | nil => simp
      | cons h t => simp

theorem two_le_pySplitChar_length (sep : Char) (l : List Char) (h : sep ∈ l) :
    2 ≤ (pySplitChar sep l).length := by
  induction l with
  | nil => cases h
  | cons c rest ih =>
    unfold pySplitChar
    by_cases hc : c = sep
    · simp only [if_pos hc, List.length_cons]
      have hne := pySplitChar_ne_nil sep rest
      have hpos : 0 < (pySplitChar sep rest).length := List.length_pos.mpr hne
      omega
    · have hmem : sep ∈ rest := by
        cases h with
        | head => exact absurd rfl hc
        | tail _ h2 => exact h2
      simp only [if_neg hc]
      cases hr : pySplitChar sep rest with
      | nil => exact absurd hr (pySplitChar_ne_nil sep rest)
      | cons hd tl =>
        have h2 := ih hmem
        rw [hr] at h2
        simpa using h2

theorem takeUntilSub_eq_self (sep l : List Char) (h : containsSub sep l = false) :
    takeUntilSub sep l = l := by
  induction l with
  | nil => rfl
  | cons c rest ih =>
    simp only [containsSub, Bool.or_eq_false_iff] at h
    simp only [takeUntilSub]
    rw [if_neg (by simp [h.1]), ih h.2]

theorem takeUntilSub_pre (sep l : List Char) : takeUntilSub sep l <+: l := by
  induction l with
  | nil => exact List.nil_prefix
  | cons c rest ih =>
    simp only [takeUntilSub]
    by_cases hp : sep.isPrefixOf (c :: rest) = true
    · rw [if_pos hp]
      exact List.nil_prefix
    · rw [if_neg hp]
      exact List.cons_prefix_cons.mpr ⟨rfl, ih⟩

theorem takeUntilSub_spec (sep : List Char) (hsep : sep ≠ []) (l : List Char)
    (h : containsSub sep l = true) :
    ∃ suf, l = takeUntilSub sep l ++ sep ++ suf
      ∧ containsSub sep (takeUntilSub sep l) = false := by
  induction l with
  | nil =>
    simp only [containsSub] at h
    rw [List.isEmpty_iff] at h
    exact absurd h hsep
  | cons c rest ih =>
    by_cases hp : sep.isPrefixOf (c :: rest) = true
    · have hpre : sep <+: (c :: rest) := List.isPrefixOf_iff_prefix.mp hp
      obtain ⟨t, ht⟩ := hpre
      refine ⟨t, ?_, ?_⟩
      · simp only [takeUntilSub]
        rw [if_pos hp]
        simpa using ht.symm
      · simp only [takeUntilSub]
        rw [if_pos hp]
        simp only [containsSub]
        simpa [List.isEmpty_iff] using hsep
    · have hrest : containsSub sep rest = true := by
        simp only [containsSub, Bool.or_eq_true_iff] at h
        cases h with
        | inl h1 => exact absurd h1 hp
        | inr h2 => exact h2
      obtain ⟨suf, hsuf, hfree⟩ := ih hrest
      have htu : takeUntilSub sep (c :: rest) = c :: takeUntilSub sep rest := by
        simp only [takeUntilSub]
        rw [if_neg hp]
      refine ⟨suf, ?_, ?_⟩
      · rw [htu]
        simpa using hsuf
      · rw [htu]
        simp only [containsSub, Bool.or_eq_false_iff]
        refine ⟨?_, hfree⟩
        by_contra hcp
        rw [Bool.not_eq_false] at hcp
        have h1 : sep <+: (c :: takeUntilSub sep rest) := List.isPrefixOf_iff_prefix.mp hcp
        have h2 : (c :: takeUntilSub sep rest) <+: (c :: rest) :=
          List.cons_prefix_cons.mpr ⟨rfl, takeUntilSub_pre sep rest⟩
        have h3 := List.isPrefixOf_iff_prefix.mpr (h1.trans h2)
        exact hp h3

theorem takeUntilSub_length_min (sep : List Char) (pre suf : List Char) :
    (takeUntilSub sep (pre ++ sep ++ suf)).length ≤ pre.length := by
  induction pre with
  | nil =>
    simp only [List.nil_append]
    cases hl : sep ++ suf with
    | nil => simp [takeUntilSub, hl]
    | cons c r =>
      have hpre : sep.isPrefixOf (c :: r) = true := by
        rw [← hl]
        exact List.isPrefixOf_iff_prefix.mpr (List.prefix_append sep suf)
      simp only [takeUntilSub]
      rw [if_pos hpre]
  | cons p ps ih =>
    simp only [List.cons_append]
    simp only [takeUntilSub]
    by_cases hp : sep.isPrefixOf (p :: (ps ++ sep ++ suf)) = true
    · rw [if_pos hp]
      simp
    · rw [if_neg hp]
      simpa using ih

theorem two_le_pySplitAmp_length (n : String) (h : n.toList.contains '&' = true) :
    2 ≤ (pySplitAmp n).length := by
  have hmem : '&' ∈ n.toList := List.elem_iff.mp h
  have := two_le_pySplitChar_length '&' n.toList hmem
  simpa [pySplitAmp] using this

theorem extract_genres_list_ok_iff (l : List GenreEntry) :
    (∃ gs, extract_genres_list l = Except.ok gs) ↔ ∀ g ∈ l, g.name ≠ none := by
  induction l with
  | nil => simp [extract_genres_list]
  | cons g rest ih =>
    cases hg : g.name with
    | none =>
      simp only [extract_genres_list, hg]
      constructor
      · rintro ⟨gs, hgs⟩
        cases hgs
      · intro hall
        exact absurd hg (hall g (List.mem_cons_self g rest))
    | some n =>
      simp only [extract_genres_list, hg]
      constructor
      · rintro ⟨gs, hgs⟩ g' hmem
        cases hrest : extract_genres_list rest with
        | error e =>
          rw [hrest] at hgs
          cases hgs
        | ok tail =>
          rcases List.mem_cons.mp hmem with h1 | h2
          · rw [h1, hg]
            simp
          · exact (ih.mp ⟨tail, hrest⟩) g' h2
      · intro hall
        obtain ⟨tail, htail⟩ := ih.mpr (fun g2 hm => hall g2 (List.mem_cons_of_mem _ hm))
        exact ⟨extract_genres_entry n ++ tail, by rw [htail]; rfl⟩

theorem extract_genres_list_map_names (ns : List String) :
    extract_genres_list (ns.map (fun n => { name := some n })) =
      Except.ok ((ns.map extract_genres_entry).flatten) := by
  induction ns with
  | nil => rfl
  | cons n rest ih =>
    simp only [List.map_cons, extract_genres_list, ih, map_ok_eq, List.flatten_cons]

/-! ## Claim C6 -/

/-- C6 (counterexample): the claim says every field extractor tolerates
missing keys, "in particular the genre extractor must tolerate a genre entry
with no 'name' field" — but `extract_genres` subscripts `genre['name']`
directly and raises `KeyError` on such an entry. -/
theorem extract_genres_missing_name_cx :
    extract_genres { genres := some [{ name := none }] } = Except.error "KeyError: 'name'" := rfl

/-- C6 (amended): `extract_directors`/`extract_stars`/`extract_language`
access every key through `.get` and are total (they are plain functions in
this embedding), but `extract_genres` succeeds exactly when every genre entry
carries a `name`; a nameless entry raises `KeyError` (which `get_by_id`'s
top-level handler then turns into the degraded error result). -/
theorem extract_genres_ok_iff_names_present (d : RawDetail) :
    (∃ gs, extract_genres d = Except.ok gs) ↔ ∀ g ∈ d.genres.getD [], g.name ≠ none :=
  extract_genres_list_ok_iff (d.genres.getD [])

/-! ## Claim C7 -/

/-- C7 (counterexample): a genre name without `'&'` is kept verbatim — the
Python code does not strip it — so the claim's "exactly one entry equal to
the **trimmed** input" fails on `" Action "`. -/
theorem extract_genres_untrimmed_cx :
    extract_genres { genres := some [{ name := some " Action " }] } = Except.ok [" Action "] ∧
    (Except.ok [" Action "] : Except String (List String)) ≠ Except.ok ["Action"] :=
  ⟨rfl, by decide⟩

/-- C7 (amended): a genre name containing `'&'` is split on it into at least
two whitespace-trimmed entries; a name without `'&'` yields exactly one entry
equal to the input **as-is** (untrimmed); order is preserved and nothing is
de-duplicated (the result is the concatenation, in order, of each entry's
parts). -/
theorem extract_genres_split_and_keep (n : String) (d : RawDetail)
    (hd : d.genres = some [{ name := some n }]) :
    (n.toList.contains '&' = true →
      extract_genres d = Except.ok ((pySplitAmp n).map pyStrip) ∧
      2 ≤ ((pySplitAmp n).map pyStrip).length) ∧
    (n.toList.contains '&' = false → extract_genres d = Except.ok [n]) ∧
    (∀ ns : List String,
      extract_genres { genres := some (ns.map (fun m => { name := some m })) } =
        Except.ok ((ns.map extract_genres_entry).flatten)) := by
  refine ⟨?_, ?_, ?_⟩
  · intro h
    have he : extract_genres_entry n = (pySplitAmp n).map pyStrip := by
      simp only [extract_genres_entry]
      rw [if_pos h]
    constructor
    · show extract_genres_list (d.genres.getD []) = _
      rw [hd]
      simp only [Option.getD_some, extract_genres_list, map_ok_eq, he, List.append_nil]
    · simpa using two_le_pySplitAmp_length n h
  · intro h
    have he : extract_genres_entry n = [n] := by
      simp only [extract_genres_entry]
      rw [if_neg (by rw [h]; exact Bool.false_ne_true)]
    show extract_genres_list (d.genres.getD []) = _
    rw [hd]
    simp only [Option.getD_some, extract_genres_list, map_ok_eq, he, List.append_nil]
  · intro ns
    exact extract_genres_list_map_names ns

/-- Witness for C7's theorem at concrete inputs: `"Sci-Fi & Fantasy"` splits
into the two trimmed entries, `"No Amp"` stays a single entry. -/
theorem extract_genres_split_and_keep_witness :
    extract_genres { genres := some [{ name := some "Sci-Fi & Fantasy" }] } =
      Except.ok ((pySplitAmp "Sci-Fi & Fantasy").map pyStrip) ∧
    2 ≤ ((pySplitAmp "Sci-Fi & Fantasy").map pyStrip).length ∧
    extract_genres { genres := some [{ name := some "No Amp" }] } = Except.ok ["No Amp"] := by
  have h1 := (extract_genres_split_and_keep "Sci-Fi & Fantasy"
    { genres := some [{ name := some "Sci-Fi & Fantasy" }] } rfl).1 (by decide)
  have h2 := (extract_genres_split_and_keep "No Amp"
    { genres := some [{ name := some "No Amp" }] } rfl).2.1 (by decide)
  exact ⟨h1.1, h1.2, h2⟩

/-! ## Claim C3 -/

/-- C3 (counterexample): the claim says `"Sci-Fi & Fantasy"` is rendered as
the two tags `"#SciFi #Fantasy"` after the extractor's `'&'`-split; but
`format_tmdb_info` reads the **raw** genre names from the payload (not
`extract_genres`' output, which goes only into the persisted record), so the
message carries the single tag `"#SciFiFantasy"`. -/
theorem genre_amp_single_tag_cx :
    format_tmdb_info "tv" (some 2) none "D" "S"
        { name := some "X", genres := some [{ name := some "Sci-Fi & Fantasy" }] } "P" =
      Except.ok "<b>X Season 2</b> is now available!\n\n#SciFiFantasy" ∧
    extract_genres { name := some "X", genres := some [{ name := some "Sci-Fi & Fantasy" }] } =
      Except.ok ["Sci-Fi", "Fantasy"] ∧
    (Except.ok "<b>X Season 2</b> is now available!\n\n#SciFiFantasy" : Except String String) ≠
      Except.ok "<b>X Season 2</b> is now available!\n\n#SciFi #Fantasy" :=
  ⟨by decide, by decide, by decide⟩

/-- C3 (amended): genre tag rendering strips every non-alphanumeric character
from each **raw** payload genre name and prefixes `'#'`, space-joining — it
does not consume the `'&'`-split extractor output, so a `'&'`-containing name
produces one single tag. -/
theorem genre_tags_from_raw_names (title g dstr sstr plot : String) :
    format_tmdb_info "tv" (some 2) none dstr sstr
        { name := some title, genres := some [{ name := some g }] } plot =
      Except.ok (pyStrip (tv_header (some 2) none
          { name := some title, genres := some [{ name := some g }] }
        ++ "\n\n" ++ ("#" ++ pyIsAlnumFilter g))) ∧
    genre_tags [g] = "#" ++ pyIsAlnumFilter g :=
  ⟨rfl, rfl⟩

/-! ## Claim C5 -/

/-- C5 (counterexample): with an absent release date the movie header keeps
empty parentheses — `"<b>Dune ()</b> is now available!"` — the year's
parentheses are not omitted as the claim states. -/
theorem movie_header_empty_parens_cx :
    movie_header { title := some "Dune" } = "<b>Dune ()</b> is now available!" ∧
    movie_header { title := some "Dune" } ≠ "<b>Dune</b> is now available!" ∧
    format_tmdb_info "movie" none none "" "" { title := some "Dune" } "" =
      Except.ok "<b>Dune ()</b> is now available!" :=
  ⟨by decide, by decide, by decide⟩

/-- C5 (amended): the movie header is `"<b>Title (Year)</b> is now available!"`
where Year is the first 4 characters of a non-empty release date; when the
release date is absent or empty, the parentheses remain, empty
(`"Title ()"`), rather than being omitted.  The claim's example
(`"Dune"`, `"2021-09-15"`) still renders `"<b>Dune (2021)</b> is now available!"`. -/
theorem movie_header_shape (d : RawDetail) (t : String) (ht : d.title = some t) :
    (∀ rd, d.release_date = some rd → rd ≠ "" →
      movie_header d = "<b>" ++ t ++ " (" ++ rd.take 4 ++ ")</b> is now available!") ∧
    (d.release_date = none → movie_header d = "<b>" ++ t ++ " ()</b> is now available!") ∧
    (d.release_date = some "" → movie_header d = "<b>" ++ t ++ " ()</b> is now available!") := by
  refine ⟨?_, ?_, ?_⟩
  · intro rd hrd hne
    have h0 : rd.isEmpty = false := by
      rw [← Bool.not_eq_true, String.isEmpty_iff]
      exact hne
    simp [movie_header, ht, hrd, pyTruthyStr, h0]
  · intro hrd
    simp [movie_header, ht, hrd, pyTruthyStr, String.append_assoc]
  · intro hrd
    simp [movie_header, ht, hrd, pyTruthyStr, String.append_assoc,
      show ("" : String).isEmpty = true from rfl]

/-- Witness for C5's theorem: the spec's own example plus the absent-date case. -/
theorem movie_header_shape_witness :
    movie_header { title := some "Dune", release_date := some "2021-09-15" } =
      "<b>" ++ "Dune" ++ " (" ++ ("2021-09-15" : String).take 4 ++ ")</b> is now available!" ∧
    movie_header { title := some "Dune", release_date := some "2021-09-15" } =
      "<b>Dune (2021)</b> is now available!" ∧
    movie_header { title := some "Dune" } = "<b>" ++ "Dune" ++ " ()</b> is now available!" := by
  have h1 := (movie_header_shape { title := some "Dune", release_date := some "2021-09-15" }
    "Dune" rfl).1 "2021-09-15" rfl (by decide)
  have h2 := (movie_header_shape { title := some "Dune" } "Dune" rfl).2.1 rfl
  exact ⟨h1, h1.trans (by decide), h2⟩

/-! ## Claim C4 -/

/-- C4: a series formatting call with season > 1 or episode > 1 (with the
code's Python-truthiness guards) produces exactly the header, a blank line
and the genre tags, stripped — no plot, no Stars line, no Directors line —
provided the genre comprehension itself succeeds. -/
theorem later_episode_truncated_body (season episode : Option Nat)
    (dstr sstr plot : String) (data : RawDetail) (ns : List String)
    (h : later_episode season episode = true)
    (hn : format_genre_names (data.genres.getD []) = Except.ok ns) :
    format_tmdb_info "tv" season episode dstr sstr data plot =
      Except.ok (pyStrip (header_of "tv" season episode data ++ "\n\n" ++ genre_tags ns)) := by
  simp only [format_tmdb_info, hn, map_ok_eq]
  rw [if_pos h]

/-- Witness for C4's theorem: S1E2 of a series — the spec's own example. -/
theorem later_episode_truncated_body_witness :
    format_tmdb_info "tv" (some 1) (some 2) "D" "S"
        { name := some "Show", first_air_date := some "2020-05-01",
          genres := some [{ name := some "Drama" }] } "PLOT" =
      Except.ok (pyStrip (header_of "tv" (some 1) (some 2)
        { name := some "Show", first_air_date := some "2020-05-01",
          genres := some [{ name := some "Drama" }] } ++ "\n\n" ++ genre_tags ["Drama"])) :=
  later_episode_truncated_body (some 1) (some 2) "D" "S" "PLOT"
    { name := some "Show", first_air_date := some "2020-05-01",
      genres := some [{ name := some "Drama" }] } ["Drama"] (by decide) rfl

/-! ## Claim C8 -/

/-- C8: the plot chain is best-effort and never fatal — a failed secondary
lookup yields `""`; an empty secondary text falls back to the primary
`overview`; a non-empty plot entry is cut right before the first occurrence
of `"::"` (the kept prefix contains no `"::"` and is the shortest such cut)
and stripped; and `get_by_id` is wholly unaffected by a secondary-source
failure (it behaves exactly as if an empty plot had come back). -/
theorem plot_chain_best_effort (lookup : Except String IMDbMovie)
    (imdb_id : Option String) (data : RawDetail) (m : IMDbMovie)
    (p : String) (rest : List String) :
    (∀ e, get_imdb_plot (Except.error e) = "") ∧
    (get_imdb_plot lookup = "" → resolve_plot lookup imdb_id data = data.overview.getD "") ∧
    (m.plot = some (p :: rest) →
      (containsSub doubleColon p.toList = false →
        get_imdb_plot (Except.ok m) = pyStrip p) ∧
      (containsSub doubleColon p.toList = true →
        get_imdb_plot (Except.ok m) = pyStrip (String.mk (takeUntilSub doubleColon p.toList)) ∧
        ∃ suf, p.toList = takeUntilSub doubleColon p.toList ++ doubleColon ++ suf ∧
          containsSub doubleColon (takeUntilSub doubleColon p.toList) = false ∧
          ∀ pre suf2, p.toList = pre ++ doubleColon ++ suf2 →
            (takeUntilSub doubleColon p.toList).length ≤ pre.length)) ∧
    (∀ (env : TmdbEnv) (t : String) (i : Int) (se ep : Option Nat) (e : String),
      get_by_id { env with imdb := Except.error e } t i se ep =
        get_by_id { env with imdb := Except.ok { plot := some [""] } } t i se ep) := by
  refine ⟨fun e => rfl, ?_, ?_, ?_⟩
  · intro hz
    simp [resolve_plot, hz]
  · intro hm
    constructor
    · intro hnc
      simp only [get_imdb_plot, hm, Option.getD_some]
      rw [takeUntilSub_eq_self _ _ hnc]
      rfl
    · intro hc
      obtain ⟨suf, hsuf, hfree⟩ := takeUntilSub_spec doubleColon (by decide) p.toList hc
      refine ⟨?_, suf, hsuf, hfree, ?_⟩
      · simp only [get_imdb_plot, hm, Option.getD_some]
      · intro pre suf2 heq
        have hmin := takeUntilSub_length_min doubleColon pre suf2
        rw [← heq] at hmin
        exact hmin
  · intro env t i se ep e
    rfl

/-- Witness for C8's theorem: a failing lookup yields `""` and falls back to
the primary overview; a found plot is cut at `"::"` and stripped. -/
theorem plot_chain_best_effort_witness :
    get_imdb_plot (Except.error "net down") = "" ∧
    resolve_plot (Except.error "net down") (some "tt123")
      { overview := some "Primary overview" } = "Primary overview" ∧
    get_imdb_plot (Except.ok { plot := some ["  A plot :: extra"] }) =
      pyStrip (String.mk (takeUntilSub doubleColon ("  A plot :: extra" : String).toList)) ∧
    get_imdb_plot (Except.ok { plot := some ["  A plot :: extra"] }) = "A plot" := by
  have h := plot_chain_best_effort (Except.error "net down") (some "tt123")
    { overview := some "Primary overview" } { plot := some ["  A plot :: extra"] }
    "  A plot :: extra" []
  have h3 := (h.2.2.1 rfl).2 (by decide)
  exact ⟨h.1 "net down", h.2.1 rfl, h3.1, h3.1.trans (by decide)⟩

/-! ## Claim C2 -/

/-- C2 (counterexample): a movie search for year 2010 whose only (unfiltered)
result is dated 2011 returns `none` — there is no fallback to the first
unfiltered result; same for the TV search. -/
theorem year_filter_no_fallback_cx :
    get_movie_by_name
      (Fetch.resp 200 (Except.ok
        { results := some [{ id := some 27205, release_date := some "2011-07-16" }] }))
      "Inception" (some 2010) = none ∧
    get_tv_by_name
      (Fetch.resp 200 (Except.ok
        { results := some [{ id := some 1399, first_air_date := some "2011-04-17" }] }))
      "Game of Thrones" (some 2010) = none :=
  ⟨by decide, by decide⟩

/-- C2 (amended): when a year is supplied and it filters out every result of
a non-empty unfiltered list, both name searches return `none` ("not found");
the first unfiltered result is used only when no year is supplied. -/
theorem year_filter_returns_none_when_empty
    (p q : SearchPayload) (sp sq : Nat) (rs ts : List SearchEntry) (y : Nat)
    (nm tn : String)
    (hp : p.results = some rs) (hrs : rs ≠ [])
    (hq : q.results = some ts) (hts : ts ≠ [])
    (hy : y ≠ 0)
    (hnone : ∀ r ∈ rs, year_matches r.release_date y = false)
    (htnone : ∀ r ∈ ts, year_matches r.first_air_date y = false) :
    get_movie_by_name (Fetch.resp sp (Except.ok p)) nm (some y) = none ∧
    get_tv_by_name (Fetch.resp sq (Except.ok q)) tn (some y) = none := by
  have hyt : pyTruthyNat (some y) = true := by simp [pyTruthyNat, hy]
  constructor
  · obtain ⟨r0, rs', hrs0⟩ := List.exists_cons_of_ne_nil hrs
    subst hrs0
    have hfilter : (r0 :: rs').filter (fun r => year_matches r.release_date y) = [] := by
      rw [List.filter_eq_nil_iff]
      intro a ha
      simp [hnone a ha]
    simp [get_movie_by_name, movie_search_body, fetchJson, bind_ok_eq, hp, hyt, hfilter]
    rfl
  · obtain ⟨r0, ts', hts0⟩ := List.exists_cons_of_ne_nil hts
    subst hts0
    have hfilter : (r0 :: ts').filter (fun r => year_matches r.first_air_date y) = [] := by
      rw [List.filter_eq_nil_iff]
      intro a ha
      simp [htnone a ha]
    simp [get_tv_by_name, tv_search_body, fetchJson, bind_ok_eq, hq, hyt, hfilter]
    rfl

/-- Witness for C2's theorem at the counterexample inputs. -/
theorem year_filter_returns_none_witness :
    get_movie_by_name
      (Fetch.resp 200 (Except.ok
        { results := some [{ id := some 27205, release_date := some "2011-07-16" }] }))
      "Inception" (some 2010) = none ∧
    get_tv_by_name
      (Fetch.resp 200 (Except.ok
        { results := some [{ id := some 1399, first_air_date := some "2011-04-17" }] }))
      "GoT" (some 2010) = none :=
  year_filter_returns_none_when_empty
    { results := some [{ id := some 27205, release_date := some "2011-07-16" }] }
    { results := some [{ id := some 1399, first_air_date := some "2011-04-17" }] }
    200 200 _ _ 2010 "Inception" "GoT" rfl (by decide) rfl (by decide) (by decide)
    (by decide) (by decide)

/-! ## Claim C1 -/

/-- C1 (counterexample): a transport exception raised by the trailer lookup,
or by the TV external-id lookup, is NOT swallowed locally — it propagates to
`get_by_id`'s top-level `except` and the whole aggregation degrades to the
two-field error dict, with no populated record. -/
theorem aux_lookup_exception_aborts_cx :
    get_by_id
      { detail := Fetch.resp 200 (Except.ok { title := some "T" }),
        images := Fetch.resp 200 (Except.ok {}),
        credits := Fetch.resp 200 (Except.ok {}),
        videos := Fetch.raise "boom",
        external_ids := Fetch.resp 200 (Except.ok {}),
        imdb := Except.error "x" } "movie" 1 none none =
      GetByIdResult.err "Error: boom" none ∧
    get_by_id
      { detail := Fetch.resp 200 (Except.ok { name := some "Show" }),
        images := Fetch.resp 200 (Except.ok {}),
        credits := Fetch.resp 200 (Except.ok {}),
        videos := Fetch.resp 200 (Except.ok {}),
        external_ids := Fetch.raise "crash",
        imdb := Except.error "x" } "tv" 5 none none =
      GetByIdResult.err "Error: crash" none :=
  ⟨by decide, by decide⟩

/-- C1 (amended): "not-found" outcomes of the two auxiliary lookups are
swallowed — a trailer response with a non-200 status makes `get_by_id` behave
exactly as a 200 response with an empty video list would (trailer absent,
pipeline continues), and an external-ids body without `imdb_id` yields no
external id — but a transport exception in either lookup aborts the whole
aggregation (see the counterexample). -/
theorem aux_lookup_soft_failure (env : TmdbEnv) (s s2 : Nat)
    (j : Except String VideosPayload) (b : ExternalIdsPayload)
    (t : String) (i : Int) (se ep : Option Nat)
    (hs : s ≠ 200) (he : env.external_ids = Fetch.resp s2 (Except.ok b)) :
    get_by_id { env with videos := Fetch.resp s j } t i se ep =
      get_by_id { env with videos := Fetch.resp 200 (Except.ok { results := some [] }) }
        t i se ep ∧
    get_trailer_url { env with videos := Fetch.resp s j } = Except.ok none ∧
    get_tv_imdb_id env = Except.ok b.imdb_id := by
  have h1 : get_trailer_url { env with videos := Fetch.resp s j } = Except.ok none := by
    simp [get_trailer_url, hs]
  have h2 : get_trailer_url
      { env with videos := Fetch.resp 200 (Except.ok { results := some [] }) } =
      Except.ok none := rfl
  have h3 : get_tv_imdb_id { env with videos := Fetch.resp s j } =
      get_tv_imdb_id { env with videos := Fetch.resp 200 (Except.ok { results := some [] }) } :=
    rfl
  refine ⟨?_, h1, ?_⟩
  · simp only [get_by_id, get_by_id_body, h1, h2, h3]
  · simp [get_tv_imdb_id, he, map_ok_eq]

/-- Witness for C1's theorem: a 404 trailer response leaves the aggregation
identical to one that found no trailer, and a present `imdb_id` is returned. -/
theorem aux_lookup_soft_failure_witness :
    get_by_id
      { detail := Fetch.resp 200 (Except.ok { title := some "T" }),
        images := Fetch.resp 200 (Except.ok {}),
        credits := Fetch.resp 200 (Except.ok {}),
        videos := Fetch.resp 404 (Except.ok {}),
        external_ids := Fetch.resp 200 (Except.ok { imdb_id := some "tt42" }),
        imdb := Except.error "x" } "movie" 1 none none =
    get_by_id
      { detail := Fetch.resp 200 (Except.ok { title := some "T" }),
        images := Fetch.resp 200 (Except.ok {}),
        credits := Fetch.resp 200 (Except.ok {}),
        videos := Fetch.resp 200 (Except.ok { results := some [] }),
        external_ids := Fetch.resp 200 (Except.ok { imdb_id := some "tt42" }),
        imdb := Except.error "x" } "movie" 1 none none ∧
    get_tv_imdb_id
      { detail := Fetch.resp 200 (Except.ok { title := some "T" }),
        images := Fetch.resp 200 (Except.ok {}),
        credits := Fetch.resp 200 (Except.ok {}),
        videos := Fetch.resp 404 (Except.ok {}),
        external_ids := Fetch.resp 200 (Except.ok { imdb_id := some "tt42" }),
        imdb := Except.error "x" } = Except.ok (some "tt42") := by
  have h := aux_lookup_soft_failure
    { detail := Fetch.resp 200 (Except.ok { title := some "T" }),
      images := Fetch.resp 200 (Except.ok {}),
      credits := Fetch.resp 200 (Except.ok {}),
      videos := Fetch.resp 404 (Except.ok {}),
      external_ids := Fetch.resp 200 (Except.ok { imdb_id := some "tt42" }),
      imdb := Except.error "x" }
    404 200 (Except.ok {}) { imdb_id := some "tt42" } "movie" 1 none none
    (by decide) rfl
  exact ⟨h.1, h.2.2⟩

theorem bind_pure_eq {α β : Type} (a : α) (f : α → Except String β) :
    (do let x ← (pure a : Except String α); f x) = f a := rfl

/-- Success shape of the movie pipeline: when the three core responses decode,
the trailer step resolves, and every join/extraction succeeds, `get_by_id`
returns the fully populated dict, with the full-detail message layout. -/
theorem get_by_id_movie_ok_shape (env : TmdbEnv) (s1 s2 s3 : Nat)
    (d : RawDetail) (im : RawImages) (c : RawCredits) (i : Int)
    (tr : Option String) (dstr sstr : String) (gs ns : List String)
    (hd : env.detail = Fetch.resp s1 (Except.ok d))
    (hi : env.images = Fetch.resp s2 (Except.ok im))
    (hc : env.credits = Fetch.resp s3 (Except.ok c))
    (hv : get_trailer_url env = Except.ok tr)
    (hds : names_or_unknown (extract_directors "movie" d c) = Except.ok dstr)
    (hss : names_or_unknown (extract_stars c 5) = Except.ok sstr)
    (hg : extract_genres d = Except.ok gs)
    (hn : format_genre_names (d.genres.getD []) = Except.ok ns) :
    get_by_id env "movie" i none none =
      GetByIdResult.ok
        (pyStrip (movie_header d ++ "\n\n"
          ++ (if resolve_plot env.imdb d.imdb_id d ≠ "" then
                resolve_plot env.imdb d.imdb_id d ++ "\n\n" else "")
          ++ (if sstr ≠ "" then "<b>Stars:</b> " ++ sstr ++ "\n\n" else "")
          ++ (if dstr ≠ "" then "<b>Directors:</b> " ++ dstr ++ "\n\n" else "")
          ++ genre_tags ns))
        (get_poster_url d) (get_backdrop_url im) tr
        { tmdb_id := i, tmdb_type := "movie",
          title := pyOrStr d.title d.name,
          rating := d.vote_average.getD 0,
          language := extract_language d,
          genre := gs,
          release_date := extract_release_date d,
          story := if resolve_plot env.imdb d.imdb_id d ≠ "" then
              some (resolve_plot env.imdb d.imdb_id d) else d.overview,
          directors := extract_directors "movie" d c,
          stars := extract_stars c 5,
          trailer_url := tr, poster_url := get_poster_url d } := by
  have hbody : get_by_id_body env "movie" i none none =
      Except.ok (GetByIdResult.ok
        (pyStrip (movie_header d ++ "\n\n"
          ++ (if resolve_plot env.imdb d.imdb_id d ≠ "" then
                resolve_plot env.imdb d.imdb_id d ++ "\n\n" else "")
          ++ (if sstr ≠ "" then "<b>Stars:</b> " ++ sstr ++ "\n\n" else "")
          ++ (if dstr ≠ "" then "<b>Directors:</b> " ++ dstr ++ "\n\n" else "")
          ++ genre_tags ns))
        (get_poster_url d) (get_backdrop_url im) tr
        { tmdb_id := i, tmdb_type := "movie",
          title := pyOrStr d.title d.name,
          rating := d.vote_average.getD 0,
          language := extract_language d,
          genre := gs,
          release_date := extract_release_date d,
          story := if resolve_plot env.imdb d.imdb_id d ≠ "" then
              some (resolve_plot env.imdb d.imdb_id d) else d.overview,
          directors := extract_directors "movie" d c,
          stars := extract_stars c 5,
          trailer_url := tr, poster_url := get_poster_url d }) := by
    simp only [get_by_id_body, hd, hi, hc, fetchJson, bind_ok_eq, hv, hds, hss, hg,
      bind_pure_eq]
    simp only [format_tmdb_info, hn, map_ok_eq, header_of, later_episode, pyTruthyNat,
      Bool.false_and, Bool.or_self, bind_ok_eq]
    simp
    rfl
  simp [get_by_id, hbody]

/-! ## Claim C9 -/

/-- C9 (amended): in the full-detail body the plot section appears only when
the plot is non-empty, but the Stars and Directors lines appear **always** —
`get_by_id` substitutes the truthy string `"Unknown"` when the cast or
director list is empty, so those lines are never dropped; each present
section is followed by a blank line and the result is stripped. -/
theorem stars_directors_lines_always_present (env : TmdbEnv) (s1 s2 s3 : Nat)
    (d : RawDetail) (im : RawImages) (i : Int) (tr : Option String) (gs ns : List String)
    (hd : env.detail = Fetch.resp s1 (Except.ok d))
    (hi : env.images = Fetch.resp s2 (Except.ok im))
    (hc : env.credits = Fetch.resp s3 (Except.ok { crew := none, cast := none }))
    (hv : get_trailer_url env = Except.ok tr)
    (hg : extract_genres d = Except.ok gs)
    (hn : format_genre_names (d.genres.getD []) = Except.ok ns) :
    names_or_unknown [] = Except.ok "Unknown" ∧
    get_by_id env "movie" i none none =
      GetByIdResult.ok
        (pyStrip (movie_header d ++ "\n\n"
          ++ (if resolve_plot env.imdb d.imdb_id d ≠ "" then
                resolve_plot env.imdb d.imdb_id d ++ "\n\n" else "")
          ++ "<b>Stars:</b> Unknown\n\n"
          ++ "<b>Directors:</b> Unknown\n\n"
          ++ genre_tags ns))
        (get_poster_url d) (get_backdrop_url im) tr
        { tmdb_id := i, tmdb_type := "movie",
          title := pyOrStr d.title d.name,
          rating := d.vote_average.getD 0,
          language := extract_language d,
          genre := gs,
          release_date := extract_release_date d,
          story := if resolve_plot env.imdb d.imdb_id d ≠ "" then
              some (resolve_plot env.imdb d.imdb_id d) else d.overview,
          directors := [], stars := [],
          trailer_url := tr, poster_url := get_poster_url d } := by
  refine ⟨rfl, ?_⟩
  have h := get_by_id_movie_ok_shape env s1 s2 s3 d im { crew := none, cast := none } i tr
    "Unknown" "Unknown" gs ns hd hi hc hv rfl rfl hg hn
  simpa [extract_directors, extract_stars, String.append_assoc] using h

/-- Witness for C9's theorem: a concrete aggregation with empty credits whose
message carries "Stars: Unknown" and "Directors: Unknown" lines. -/
theorem stars_directors_lines_always_present_witness :
    get_by_id
      { detail := Fetch.resp 200 (Except.ok { title := some "T" }),
        images := Fetch.resp 200 (Except.ok {}),
        credits := Fetch.resp 200 (Except.ok { crew := none, cast := none }),
        videos := Fetch.resp 200 (Except.ok {}),
        external_ids := Fetch.resp 200 (Except.ok {}),
        imdb := Except.error "x" } "movie" 7 none none =
      GetByIdResult.ok
        "<b>T ()</b> is now available!\n\n<b>Stars:</b> Unknown\n\n<b>Directors:</b> Unknown"
        none none none
        { tmdb_id := 7, tmdb_type := "movie", title := some "T", rating := 0,
          language := "Unknown", genre := [], release_date := "", story := none,
          directors := [], stars := [], trailer_url := none, poster_url := none } := by
  have h := (stars_directors_lines_always_present
    { detail := Fetch.resp 200 (Except.ok { title := some "T" }),
      images := Fetch.resp 200 (Except.ok {}),
      credits := Fetch.resp 200 (Except.ok { crew := none, cast := none }),
      videos := Fetch.resp 200 (Except.ok {}),
      external_ids := Fetch.resp 200 (Except.ok {}),
      imdb := Except.error "x" } 200 200 200
    { title := some "T" } {} 7 none [] [] rfl rfl rfl rfl rfl rfl).2
  exact h.trans (by decide)

/-- C9 (counterexample): an aggregation with **zero** cast entries still
produces a "Stars: …" line (showing "Unknown"), contradicting the claim that
the line appears only when there is at least one cast entry; same for
Directors. -/
theorem stars_unknown_line_cx :
    get_by_id
      { detail := Fetch.resp 200 (Except.ok { title := some "T2" }),
        images := Fetch.resp 200 (Except.ok {}),
        credits := Fetch.resp 200 (Except.ok { crew := some [], cast := some [] }),
        videos := Fetch.resp 200 (Except.ok {}),
        external_ids := Fetch.resp 200 (Except.ok {}),
        imdb := Except.error "x" } "movie" 9 none none =
      GetByIdResult.ok
        "<b>T2 ()</b> is now available!\n\n<b>Stars:</b> Unknown\n\n<b>Directors:</b> Unknown"
        none none none
        { tmdb_id := 9, tmdb_type := "movie", title := some "T2", rating := 0,
          language := "Unknown", genre := [], release_date := "", story := none,
          directors := [], stars := [], trailer_url := none, poster_url := none } ∧
    containsSub ("<b>Stars:</b>".toList)
      ("<b>T2 ()</b> is now available!\n\n<b>Stars:</b> Unknown\n\n<b>Directors:</b> Unknown".toList)
      = true :=
  ⟨by decide, by decide⟩

/-! ## Claim C10 -/

/-- C10 (counterexample): a response set whose bodies all parse as JSON can
still yield an **error** result — extraction itself can raise (here a genre
entry without a name), so "any response whose body parses as JSON … yields a
non-error result" is too strong. -/
theorem parse_ok_error_result_cx :
    get_by_id
      { detail := Fetch.resp 404 (Except.ok { genres := some [{ name := none }] }),
        images := Fetch.resp 404 (Except.ok {}),
        credits := Fetch.resp 404 (Except.ok {}),
        videos := Fetch.resp 200 (Except.ok {}),
        external_ids := Fetch.resp 200 (Except.ok {}),
        imdb := Except.error "e" } "movie" 3 none none =
      GetByIdResult.err "Error: KeyError: 'name'" none := by decide

/-- C10 (amended): the HTTP status of the three core responses (and of the
external-ids response) is never inspected — the aggregation result is
invariant under changing those statuses — and whenever the decoded bodies
extract and join cleanly the result is the populated non-error dict, whatever
the statuses were; only the trailer lookup checks for status 200, a non-200
trailer response resolving to no trailer. -/
theorem core_status_never_inspected (env : TmdbEnv) (s1 s2 s3 t1 t2 t3 sv sx tx : Nat)
    (j1 : Except String RawDetail) (j2 : Except String RawImages)
    (j3 : Except String RawCredits) (jv : Except String VideosPayload)
    (jx : Except String ExternalIdsPayload)
    (ty : String) (i : Int) (se ep : Option Nat)
    (hsv : sv ≠ 200) :
    get_by_id { env with detail := Fetch.resp s1 j1, images := Fetch.resp s2 j2, credits := Fetch.resp s3 j3 } ty i se ep =
      get_by_id { env with detail := Fetch.resp t1 j1, images := Fetch.resp t2 j2, credits := Fetch.resp t3 j3 } ty i se ep ∧
    get_tv_imdb_id { env with external_ids := Fetch.resp sx jx } =
      get_tv_imdb_id { env with external_ids := Fetch.resp tx jx } ∧
    get_trailer_url { env with videos := Fetch.resp sv jv } = Except.ok none ∧
    (∀ (d : RawDetail) (im : RawImages) (c : RawCredits) (tr : Option String)
        (dstr sstr : String) (gs ns : List String),
      names_or_unknown (extract_directors "movie" d c) = Except.ok dstr →
      names_or_unknown (extract_stars c 5) = Except.ok sstr →
      extract_genres d = Except.ok gs →
      format_genre_names (d.genres.getD []) = Except.ok ns →
      get_trailer_url { env with detail := Fetch.resp s1 (Except.ok d), images := Fetch.resp s2 (Except.ok im), credits := Fetch.resp s3 (Except.ok c) } = Except.ok tr →
      ∃ msg mongo,
        get_by_id { env with detail := Fetch.resp s1 (Except.ok d), images := Fetch.resp s2 (Except.ok im), credits := Fetch.resp s3 (Except.ok c) } "movie" i none none =
          GetByIdResult.ok msg (get_poster_url d) (get_backdrop_url im) tr mongo) := by
  refine ⟨rfl, rfl, ?_, ?_⟩
  · simp [get_trailer_url, hsv]
  · intro d im c tr dstr sstr gs ns hds hss hg hn htr
    exact ⟨_, _, get_by_id_movie_ok_shape _ s1 s2 s3 d im c i tr dstr sstr gs ns
      rfl rfl rfl htr hds hss hg hn⟩

/-- Witness for C10's theorem: the same decoded bodies under statuses 404 and
500 give identical results, and a 404 trailer response yields no trailer. -/
theorem core_status_never_inspected_witness :
    get_by_id
      { detail := Fetch.resp 404 (Except.ok { title := some "T" }),
        images := Fetch.resp 404 (Except.ok {}),
        credits := Fetch.resp 404 (Except.ok {}),
        videos := Fetch.resp 200 (Except.ok {}),
        external_ids := Fetch.resp 200 (Except.ok {}),
        imdb := Except.error "x" } "movie" 1 none none =
    get_by_id
      { detail := Fetch.resp 500 (Except.ok { title := some "T" }),
        images := Fetch.resp 500 (Except.ok {}),
        credits := Fetch.resp 500 (Except.ok {}),
        videos := Fetch.resp 200 (Except.ok {}),
        external_ids := Fetch.resp 200 (Except.ok {}),
        imdb := Except.error "x" } "movie" 1 none none ∧
    get_trailer_url
      { detail := Fetch.resp 404 (Except.ok { title := some "T" }),
        images := Fetch.resp 404 (Except.ok {}),
        credits := Fetch.resp 404 (Except.ok {}),
        videos := Fetch.resp 404 (Except.ok {}),
        external_ids := Fetch.resp 200 (Except.ok {}),
        imdb := Except.error "x" } = Except.ok none := by
  have h := core_status_never_inspected
    { detail := Fetch.resp 404 (Except.ok { title := some "T" }),
      images := Fetch.resp 404 (Except.ok {}),
      credits := Fetch.resp 404 (Except.ok {}),
      videos := Fetch.resp 200 (Except.ok {}),
      external_ids := Fetch.resp 200 (Except.ok {}),
      imdb := Except.error "x" }
    404 404 404 500 500 500 404 200 200
    (Except.ok { title := some "T" }) (Except.ok {}) (Except.ok {})
    (Except.ok {}) (Except.ok {}) "movie" 1 none none (by decide)
  exact ⟨h.1, h.2.2.1⟩
